import Mathlib

/-!
Verification of the SecurePatrol checkpoint-verification engine.

The definitions below are a shallow embedding of the TypeScript source:
numeric JS values that only ever flow through arithmetic comparisons are
modelled as `ℚ` (every finite JS number is a rational, and comparisons on
rationals agree exactly with comparisons on the corresponding floats);
the transcendental haversine computation is modelled over `ℝ`.
-/

namespace SecurePatrol

/-- Embeds `enum Role` from `types`. -/
inductive Role where
  | ADMIN
  | OFFICER
deriving DecidableEq, Repr

/-- Embeds `interface Coordinates` from `types`: latitude/longitude in
degrees, optional GPS accuracy in meters. -/
structure Coordinates where
  latitude : ℚ
  longitude : ℚ
  accuracy : Option ℚ
deriving DecidableEq, Repr

/-- Embeds `type ScheduleType = 'NONE' | 'FIXED_TIME' | 'INTERVAL'`. -/
inductive ScheduleType where
  | NONE
  | FIXED_TIME
  | INTERVAL
deriving DecidableEq, Repr

/-- Embeds `interface ScheduleConfig` from `types`. -/
structure ScheduleConfig where
  type : ScheduleType
  fixedTimes : Option (List String)
  intervalMinutes : Option ℕ
  toleranceMinutes : Option ℕ
deriving DecidableEq, Repr

/-- Embeds `interface Checkpoint` from `types`. -/
structure Checkpoint where
  id : String
  name : String
  location : Coordinates
  allowedRadiusMeters : ℚ
  schedule : Option ScheduleConfig
deriving DecidableEq, Repr

/-- Embeds `enum ScanStatus` from `types`. -/
inductive ScanStatus where
  | VALID
  | INVALID_LOCATION
  | INVALID_TIME
  | LATE
  | ISSUE_REPORTED
deriving DecidableEq, Repr

/-- Embeds `interface ScanLog` from `types`. -/
structure ScanLog where
  id : String
  checkpointId : String
  checkpointName : String
  officerId : String
  timestamp : ℕ
  status : ScanStatus
  note : Option String
  userLocation : Option Coordinates
  distanceFromTarget : Option ℚ
  evidencePhotoUrl : Option String
deriving DecidableEq, Repr

/-- Embeds `interface User` from `types`. -/
structure User where
  id : String
  name : String
  role : Role
deriving DecidableEq, Repr

/-- JS `v || d` on an optional number whose only falsy numeric value of
interest is `0` (the code applies it to non-negative quantities):
`undefined` and `0` both fall back to the default. -/
def jsOrNat (v : Option ℕ) (d : ℕ) : ℕ :=
  match v with
  | none => d
  | some n => if n = 0 then d else n

/-- JS `v || d` for an optional rational quantity: `undefined` and `0`
fall back to the default. -/
def jsOrQ (v : Option ℚ) (d : ℚ) : ℚ :=
  match v with
  | none => d
  | some x => if x = 0 then d else x

/-- Embeds JS `String.prototype.split(sep)` on a character list: splits at
every occurrence of `sep`, keeping empty segments. -/
def splitOnChar (sep : Char) : List Char → List (List Char)
  | [] => [[]]
  | c :: cs =>
    match splitOnChar sep cs with
    | r :: rs => if c = sep then [] :: r :: rs else (c :: r) :: rs
    | [] => if c = sep then [[], []] else [[c]]

/-- Embeds JS `Number(str)` restricted to the plain decimal strings the
schedule data carries: a non-empty all-digit string parses to its value,
anything else is `NaN`, modelled as `none` (a `NaN` makes every
comparison in the window test false, exactly as `none` does below). -/
def digitsToNat? (cs : List Char) : Option ℕ :=
  if cs = [] then none
  else if cs.all (fun c => c.isDigit) then
    some (cs.foldl (fun acc c => acc * 10 + (c.toNat - 48)) 0)
  else none

/-- Embeds lines 742–743 of `handleSimulatedScan`:
`const [h, m] = timeStr.split(':').map(Number); const targetMinutes = h * 60 + m;`.
When either of the first two segments is missing or non-numeric the JS
code produces `NaN` for `targetMinutes`, modelled as `none`. -/
def parseTimeMinutes (timeStr : String) : Option ℕ :=
  match (splitOnChar ':' timeStr.data).map digitsToNat? with
  | some h :: some m :: _ => some (h * 60 + m)
  | _ => none

/-- Embeds the time check of `handleSimulatedScan` (lines 732–751), the
spec's Schedule Evaluator: returns `true` when `timeStatus` stays
`'VALID'` and `false` when it is set to `'INVALID_TIME'`. The guard
requires a `FIXED_TIME` schedule with a present `fixedTimes` array;
`tolerance` is `schedule.toleranceMinutes || 10`. -/
def timeCheckPasses (schedule : Option ScheduleConfig) (currentMinutes : ℕ) : Bool :=
  match schedule with
  | some s =>
    match s.type, s.fixedTimes with
    | ScheduleType.FIXED_TIME, some fixedTimes =>
      let tolerance := jsOrNat s.toleranceMinutes 10
      fixedTimes.any (fun timeStr =>
        match parseTimeMinutes timeStr with
        | some targetMinutes =>
          ((currentMinutes : Int) - (targetMinutes : Int)).natAbs ≤ tolerance
        | none => false)
    | _, _ => true
  | none => true

/-- Embeds the verdict computation of `handleSimulatedScan`
(lines 717–766), factored over the already-measured `distance` (line 725
computes it with `calculateDistance`) and the effective `accuracy`
(line 717): `isNearby = distance <= allowedRadiusMeters`,
`isGpsPoor = accuracy > 100`, then the priority chain of lines 757–766. -/
def scanVerdict (targetCheckpoint : Checkpoint) (distance : ℚ) (accuracy : ℚ)
    (currentMinutes : ℕ) : ScanStatus :=
  let isNearby : Bool := distance ≤ targetCheckpoint.allowedRadiusMeters
  let isGpsPoor : Bool := accuracy > 100
  let timeValid : Bool := timeCheckPasses targetCheckpoint.schedule currentMinutes
  if !timeValid then ScanStatus.INVALID_TIME
  else if isGpsPoor then ScanStatus.VALID
  else if !isNearby then ScanStatus.INVALID_LOCATION
  else ScanStatus.VALID

/-- Embeds line 717 of `handleSimulatedScan`:
`const accuracy = currentLocation.accuracy || 0;` followed by the verdict
computation on the resulting effective accuracy. -/
def scanVerdictFromReading (targetCheckpoint : Checkpoint) (distance : ℚ)
    (sensorAccuracy : Option ℚ) (currentMinutes : ℕ) : ScanStatus :=
  scanVerdict targetCheckpoint distance (jsOrQ sensorAccuracy 0) currentMinutes

/-- Embeds `handleFinalSubmit` (part_001 lines 799–817): with no pending
draft or an empty officer selection the submission is refused (`none`,
the code `return`s after an alert); otherwise the finalized log is the
draft with the officer display name, the edited note, and the optional
evidence photo. -/
def handleFinalSubmit (pendingLog : Option ScanLog) (selectedOfficerId : String)
    (noteText : String) (hasPhoto : Bool) (officers : List User) : Option ScanLog :=
  match pendingLog with
  | none => none
  | some pl =>
    if selectedOfficerId = "" then none
    else
      let officer := officers.find? (fun o => o.id == selectedOfficerId)
      let officerDisplayName :=
        match officer with
        | some o => o.name ++ " (" ++ o.id ++ ")"
        | none => selectedOfficerId
      some { pl with
              officerId := officerDisplayName
              note := some noteText
              evidencePhotoUrl := if hasPhoto then some "mock_photo_url.jpg" else none }

/-- Embeds the local-store update of `handleScanComplete` (part_000
line 128): `setLogs(prev => [...prev, log])`. -/
def handleScanComplete (logs : List ScanLog) (log : ScanLog) : List ScanLog :=
  logs ++ [log]

/-- The confirmation step end to end: `handleFinalSubmit` either refuses
(store untouched) or produces the finalized log that `onScanComplete`
appends to the store. -/
def finalizeScan (logs : List ScanLog) (pendingLog : Option ScanLog)
    (selectedOfficerId : String) (noteText : String) (hasPhoto : Bool)
    (officers : List User) : List ScanLog :=
  match handleFinalSubmit pendingLog selectedOfficerId noteText hasPhoto officers with
  | none => logs
  | some finalLog => handleScanComplete logs finalLog

/-- The three local collections managed by the app component
(part_000): scan logs, officers, checkpoints. -/
structure AppState where
  logs : List ScanLog
  officers : List User
  checkpoints : List Checkpoint
deriving DecidableEq, Repr

/-- The remote snapshot returned by `fetchAllDataFromSheet`. -/
structure CloudData where
  logs : List ScanLog
  officers : List User
  checkpoints : List Checkpoint
deriving DecidableEq, Repr

/-- Embeds the pull merge of `loadCloudData` (part_000 lines 73–102):
each of the three collections is replaced by the remote one exactly when
the remote collection is non-empty (`cloudData.xs.length > 0`). -/
def loadCloudData (state : AppState) (cloudData : CloudData) : AppState :=
  let state1 := if cloudData.logs.length > 0 then { state with logs := cloudData.logs } else state
  let state2 :=
    if cloudData.officers.length > 0 then { state1 with officers := cloudData.officers } else state1
  if cloudData.checkpoints.length > 0 then
    { state2 with checkpoints := cloudData.checkpoints }
  else state2

/-- Model of JS `Math.atan2(y, x)` over the reals (the standard
quadrant-aware arctangent, with `atan2 0 0 = 0` as in IEEE). -/
noncomputable def atan2 (y x : ℝ) : ℝ :=
  if 0 < x then Real.arctan (y / x)
  else if x < 0 ∧ 0 ≤ y then Real.arctan (y / x) + Real.pi
  else if x < 0 ∧ y < 0 then Real.arctan (y / x) - Real.pi
  else if x = 0 ∧ 0 < y then Real.pi / 2
  else if x = 0 ∧ y < 0 then -(Real.pi / 2)
  else 0

/-- The `a` term of `calculateDistance` (utils.ts lines 9–19):
`sin(dLat/2)·sin(dLat/2) + cos(lat1)·cos(lat2)·sin(dLon/2)·sin(dLon/2)`
with latitudes converted to radians. -/
noncomputable def haversineTerm (coords1 coords2 : Coordinates) : ℝ :=
  let lat1 := ((coords1.latitude : ℝ) * Real.pi) / 180
  let lat2 := ((coords2.latitude : ℝ) * Real.pi) / 180
  let deltaLat := (((coords2.latitude : ℝ) - (coords1.latitude : ℝ)) * Real.pi) / 180
  let deltaLon := (((coords2.longitude : ℝ) - (coords1.longitude : ℝ)) * Real.pi) / 180
  Real.sin (deltaLat / 2) * Real.sin (deltaLat / 2) +
    Real.cos lat1 * Real.cos lat2 * Real.sin (deltaLon / 2) * Real.sin (deltaLon / 2)

/-- Embeds `calculateDistance` (utils.ts lines 4–24): haversine distance
in meters with mean Earth radius `R = 6371e3`. -/
noncomputable def calculateDistance (coords1 coords2 : Coordinates) : ℝ :=
  let a := haversineTerm coords1 coords2
  let c := 2 * atan2 (Real.sqrt a) (Real.sqrt (1 - a))
  6371000 * c

/-- A concrete draft scan record, used to instantiate theorems about
the confirmation and sync paths at concrete inputs. -/
def sampleDraft : ScanLog :=
  { id := "1", checkpointId := "cp-001", checkpointName := "Main Entrance Gate",
    officerId := "", timestamp := 0, status := ScanStatus.VALID,
    note := some "Routine Check: OK", userLocation := none,
    distanceFromTarget := some 12, evidencePhotoUrl := none }

/-- A concrete FIXED_TIME schedule, for instantiating the schedule
theorems on concrete inputs. -/
def fixedTimeSchedule (times : List String) (tol : Option ℕ) : ScheduleConfig :=
  { type := ScheduleType.FIXED_TIME, fixedTimes := some times,
    intervalMinutes := none, toleranceMinutes := tol }

/-- A concrete INTERVAL schedule, as on the default checkpoint cp-002. -/
def intervalSchedule : ScheduleConfig :=
  { type := ScheduleType.INTERVAL, fixedTimes := none,
    intervalMinutes := some 60, toleranceMinutes := none }

/-- A concrete checkpoint with a chosen geofence radius and schedule,
for instantiating the verdict theorems on concrete inputs. -/
def testCheckpoint (radius : ℚ) (sched : Option ScheduleConfig) : Checkpoint :=
  { id := "cp-001", name := "Main Entrance Gate",
    location := { latitude := 13.7563, longitude := 100.5018, accuracy := none },
    allowedRadiusMeters := radius, schedule := sched }

/-- Claim C1: whenever the Schedule Evaluator fails for the checkpoint's
schedule at the current time, the draft record's status is INVALID_TIME,
for every measured distance and every sensor accuracy: schedule failure
takes precedence over the geofence outcome and the degraded-sensor
override. -/
theorem scheduleFail_forces_invalid_time
    (cp : Checkpoint) (distance accuracy : ℚ) (now : ℕ)
    (h : timeCheckPasses cp.schedule now = false) :
    scanVerdict cp distance accuracy now = ScanStatus.INVALID_TIME := by
  simp [scanVerdict, h]

/-- Claim C1 witness: at 10:00 against an 08:00-only schedule, even with
distance 10 ≤ radius 50 and degraded accuracy 150, the verdict is
INVALID_TIME. -/
theorem scheduleFail_forces_invalid_time_witness :
    scanVerdict (testCheckpoint 50 (some (fixedTimeSchedule ["08:00"] (some 10))))
      10 150 600 = ScanStatus.INVALID_TIME :=
  scheduleFail_forces_invalid_time _ 10 150 600 (by decide)

/-- Claim C2: when the schedule check passes and the sensor accuracy is
strictly above 100 m, the verdict is VALID for every measured distance,
including distances beyond the allowed radius. -/
theorem degraded_sensor_yields_valid
    (cp : Checkpoint) (distance accuracy : ℚ) (now : ℕ)
    (hTime : timeCheckPasses cp.schedule now = true)
    (hAcc : 100 < accuracy) :
    scanVerdict cp distance accuracy now = ScanStatus.VALID := by
  simp [scanVerdict, hTime, hAcc]

/-- Claim C2 witness: accuracy 150 m, distance 60 m, radius 50 m, no
schedule — verdict VALID. -/
theorem degraded_sensor_yields_valid_witness :
    scanVerdict (testCheckpoint 50 none) 60 150 0 = ScanStatus.VALID :=
  degraded_sensor_yields_valid _ 60 150 0 (by decide) (by norm_num)

/-- Claim C3: when the schedule check passes and the sensor accuracy is
at most 100 m, the geofence decides: distance strictly beyond the
allowed radius gives INVALID_LOCATION, distance within (inclusive)
gives VALID. -/
theorem geofence_decides_when_sensor_good
    (cp : Checkpoint) (distance accuracy : ℚ) (now : ℕ)
    (hTime : timeCheckPasses cp.schedule now = true)
    (hAcc : accuracy ≤ 100) :
    (cp.allowedRadiusMeters < distance →
      scanVerdict cp distance accuracy now = ScanStatus.INVALID_LOCATION) ∧
    (distance ≤ cp.allowedRadiusMeters →
      scanVerdict cp distance accuracy now = ScanStatus.VALID) := by
  constructor
  · intro hd
    simp [scanVerdict, hTime, not_lt.mpr hAcc, not_le.mpr hd]
  · intro hd
    simp [scanVerdict, hTime, not_lt.mpr hAcc, hd]

/-- Claim C3 witness: radius 50, accuracy 80 ≤ 100, distance 60 —
verdict INVALID_LOCATION (and at distance 50 exactly, VALID). -/
theorem geofence_decides_when_sensor_good_witness :
    scanVerdict (testCheckpoint 50 none) 60 80 0 = ScanStatus.INVALID_LOCATION ∧
    scanVerdict (testCheckpoint 50 none) 50 80 0 = ScanStatus.VALID :=
  ⟨(geofence_decides_when_sensor_good _ 60 80 0 (by decide) (by norm_num)).1
      (by norm_num [testCheckpoint]),
   (geofence_decides_when_sensor_good _ 50 80 0 (by decide) (by norm_num)).2
      (by norm_num [testCheckpoint])⟩

/-- Claim C4: for a FIXED_TIME schedule at ["08:00"] with tolerance 10,
the evaluator passes at 07:51 (471) and 08:10 (490) and fails at 07:49
(469) and 08:11 (491): the window is inclusive at exactly the
tolerance. -/
theorem fixed_time_window_boundaries :
    timeCheckPasses (some (fixedTimeSchedule ["08:00"] (some 10))) 471 = true ∧
    timeCheckPasses (some (fixedTimeSchedule ["08:00"] (some 10))) 469 = false ∧
    timeCheckPasses (some (fixedTimeSchedule ["08:00"] (some 10))) 490 = true ∧
    timeCheckPasses (some (fixedTimeSchedule ["08:00"] (some 10))) 491 = false := by decide

/-- Claim C5 counterexample: with configured toleranceMinutes = 0 the
code falls back to the default tolerance 10 (`toleranceMinutes || 10`),
so at now = 485 (08:05) the evaluator PASSes although the only entry
("08:00", minute-of-day 480) differs by 5 > 0 — refuting "PASS iff some
entry is within the configured tolerance" at tolerance 0. -/
theorem fixed_time_zero_tolerance_counterexample :
    timeCheckPasses (some (fixedTimeSchedule ["08:00"] (some 0))) 485 = true ∧
    parseTimeMinutes "08:00" = some 480 ∧
    ¬ ((485 : Int) - (480 : Int)).natAbs ≤ 0 := by decide

/-- Claim C5 (amended): for every FIXED_TIME schedule with a configured
toleranceMinutes ≥ 1 and a present fixedTimes list, the evaluator passes
iff some entry parses to a minute-of-day within the configured tolerance
of now. (A configured tolerance of 0 is treated as unset and falls back
to the default of 10.) -/
theorem fixed_time_pass_iff_within_tolerance
    (times : List String) (tol : ℕ) (iv : Option ℕ) (now : ℕ)
    (htol : tol ≠ 0) (_hne : times ≠ []) :
    timeCheckPasses
      (some { type := ScheduleType.FIXED_TIME, fixedTimes := some times,
              intervalMinutes := iv, toleranceMinutes := some tol }) now = true ↔
      ∃ t ∈ times, ∃ tm, parseTimeMinutes t = some tm ∧
        ((now : Int) - (tm : Int)).natAbs ≤ tol := by
  simp only [timeCheckPasses, jsOrNat, if_neg htol]
  rw [List.any_eq_true]
  constructor
  · rintro ⟨t, ht, hpred⟩
    cases hp : parseTimeMinutes t with
    | none => rw [hp] at hpred; exact absurd hpred (by simp)
    | some tm =>
      rw [hp] at hpred
      exact ⟨t, ht, tm, hp, by simpa using hpred⟩
  · rintro ⟨t, ht, tm, hp, hle⟩
    refine ⟨t, ht, ?_⟩
    rw [hp]
    simpa using hle

/-- Claim C5 witness: schedule ["08:00"], tolerance 10, now 471 — the
evaluator passes, so some entry is within tolerance. -/
theorem fixed_time_pass_iff_within_tolerance_witness :
    ∃ t ∈ ["08:00"], ∃ tm, parseTimeMinutes t = some tm ∧
      ((471 : Int) - (tm : Int)).natAbs ≤ 10 :=
  (fixed_time_pass_iff_within_tolerance ["08:00"] 10 none 471
    (by decide) (by decide)).mp (by decide)

/-- Claim C6: with an absent schedule, or a schedule of type NONE or
INTERVAL, the time check passes and the verdict is never INVALID_TIME. -/
theorem non_fixed_schedule_never_invalid_time
    (cp : Checkpoint) (distance accuracy : ℚ) (now : ℕ)
    (h : cp.schedule = none ∨
      ∃ s, cp.schedule = some s ∧
        (s.type = ScheduleType.NONE ∨ s.type = ScheduleType.INTERVAL)) :
    timeCheckPasses cp.schedule now = true ∧
      scanVerdict cp distance accuracy now ≠ ScanStatus.INVALID_TIME := by
  have hpass : timeCheckPasses cp.schedule now = true := by
    rcases h with h | ⟨s, hs, hty⟩
    · rw [h]; rfl
    · rw [hs]
      obtain ⟨ty, ft, iv, tol⟩ := s
      rcases hty with hty | hty <;> (simp only at hty; subst hty) <;>
        cases ft <;> rfl
  refine ⟨hpass, ?_⟩
  simp only [scanVerdict, hpass]
  by_cases hg : (100 : ℚ) < accuracy <;>
    by_cases hn : distance ≤ cp.allowedRadiusMeters <;>
      simp [hg, hn]

/-- Claim C6 witness: an INTERVAL-scheduled checkpoint (as cp-002 in the
defaults) never yields INVALID_TIME. -/
theorem non_fixed_schedule_never_invalid_time_witness :
    timeCheckPasses (testCheckpoint 50 (some intervalSchedule)).schedule 0 = true ∧
    scanVerdict (testCheckpoint 50 (some intervalSchedule)) 60 5 0 ≠ ScanStatus.INVALID_TIME :=
  non_fixed_schedule_never_invalid_time (testCheckpoint 50 (some intervalSchedule)) 60 5 0
    (Or.inr ⟨intervalSchedule, rfl, Or.inr rfl⟩)

/-- Claim C10: a reading without an accuracy value gets effective
accuracy 0 (`accuracy || 0`), so the attempt is never sensor-degraded
and the verdict is decided purely by the schedule check and the
inclusive geofence test. -/
theorem missing_accuracy_defaults_to_zero
    (cp : Checkpoint) (distance : ℚ) (now : ℕ) :
    jsOrQ none 0 = 0 ∧
    scanVerdictFromReading cp distance none now =
      (if timeCheckPasses cp.schedule now then
        (if distance ≤ cp.allowedRadiusMeters then ScanStatus.VALID
         else ScanStatus.INVALID_LOCATION)
       else ScanStatus.INVALID_TIME) := by
  refine ⟨rfl, ?_⟩
  simp only [scanVerdictFromReading, scanVerdict, jsOrQ]
  cases ht : timeCheckPasses cp.schedule now <;>
    by_cases hd : distance ≤ cp.allowedRadiusMeters <;>
      simp [ht, hd, show ¬ (100 : ℚ) < 0 by norm_num]

/-- Claim C8: confirming a pending draft with an empty officer selection
is rejected and leaves the scan-record store unchanged; a non-empty
officer selection appends exactly one new record, leaving all previously
stored records in place. -/
theorem confirmation_store_behavior
    (logs : List ScanLog) (pl : ScanLog) (selectedOfficerId noteText : String)
    (hasPhoto : Bool) (officers : List User) :
    (selectedOfficerId = "" →
      finalizeScan logs (some pl) selectedOfficerId noteText hasPhoto officers = logs) ∧
    (selectedOfficerId ≠ "" →
      ∃ newLog, finalizeScan logs (some pl) selectedOfficerId noteText hasPhoto officers
        = logs ++ [newLog]) := by
  constructor
  · intro h
    simp [finalizeScan, handleFinalSubmit, h]
  · intro h
    have hsub : handleFinalSubmit (some pl) selectedOfficerId noteText hasPhoto officers ≠ none := by
      simp [handleFinalSubmit, h]
    cases hfs : handleFinalSubmit (some pl) selectedOfficerId noteText hasPhoto officers with
    | none => exact absurd hfs hsub
    | some finalLog => exact ⟨finalLog, by simp [finalizeScan, hfs, handleScanComplete]⟩

/-- Claim C8 witness: an empty selection leaves the store unchanged; the
selection "OFF-001" appends exactly one record to the store. -/
theorem confirmation_store_behavior_witness :
    finalizeScan [sampleDraft] (some sampleDraft) "" "note" false [] = [sampleDraft] ∧
    ∃ newLog,
      finalizeScan [sampleDraft] (some sampleDraft) "OFF-001" "note" false []
        = [sampleDraft] ++ [newLog] :=
  ⟨(confirmation_store_behavior [sampleDraft] sampleDraft "" "note" false []).1 rfl,
   (confirmation_store_behavior [sampleDraft] sampleDraft "OFF-001" "note" false []).2
     (by decide)⟩

/-- Claim C9: on a pull, each of the three collections is independently
replaced by the remote collection exactly when the remote collection is
non-empty, and left unchanged when the remote collection is empty. -/
theorem pull_replaces_iff_nonempty
    (state : AppState) (cloudData : CloudData) :
    (cloudData.logs = [] → (loadCloudData state cloudData).logs = state.logs) ∧
    (cloudData.logs ≠ [] → (loadCloudData state cloudData).logs = cloudData.logs) ∧
    (cloudData.officers = [] → (loadCloudData state cloudData).officers = state.officers) ∧
    (cloudData.officers ≠ [] → (loadCloudData state cloudData).officers = cloudData.officers) ∧
    (cloudData.checkpoints = [] →
      (loadCloudData state cloudData).checkpoints = state.checkpoints) ∧
    (cloudData.checkpoints ≠ [] →
      (loadCloudData state cloudData).checkpoints = cloudData.checkpoints) := by
  refine ⟨?_, ?_, ?_, ?_, ?_, ?_⟩ <;> intro h <;>
    simp only [loadCloudData] <;>
    by_cases h1 : cloudData.logs.length > 0 <;>
    by_cases h2 : cloudData.officers.length > 0 <;>
    by_cases h3 : cloudData.checkpoints.length > 0 <;>
    simp_all [List.length_pos, List.length_eq_zero]

/-- Claim C9 witness: a pull whose remote scanRecords collection is
empty leaves the one existing local record in place. -/
theorem pull_replaces_iff_nonempty_witness :
    (loadCloudData { logs := [sampleDraft], officers := [], checkpoints := [] }
      { logs := [], officers := [], checkpoints := [] }).logs = [sampleDraft] :=
  (pull_replaces_iff_nonempty
    { logs := [sampleDraft], officers := [], checkpoints := [] }
    { logs := [], officers := [], checkpoints := [] }).1 rfl

/-- The `a` term of the haversine formula is symmetric in its two
coordinates. -/
theorem haversineTerm_comm (A B : Coordinates) : haversineTerm A B = haversineTerm B A := by
  simp only [haversineTerm]
  have h1 : (((A.latitude : ℝ) - (B.latitude : ℝ)) * Real.pi) / 180 / 2
      = -((((B.latitude : ℝ) - (A.latitude : ℝ)) * Real.pi) / 180 / 2) := by ring
  have h2 : (((A.longitude : ℝ) - (B.longitude : ℝ)) * Real.pi) / 180 / 2
      = -((((B.longitude : ℝ) - (A.longitude : ℝ)) * Real.pi) / 180 / 2) := by ring
  rw [h1, h2]
  simp only [Real.sin_neg]
  ring

/-- The `a` term of the haversine formula vanishes on identical
coordinates. -/
theorem haversineTerm_self (A : Coordinates) : haversineTerm A A = 0 := by
  simp [haversineTerm]

/-- Claim C7: the computed distance is symmetric in its two arguments,
and the distance from any coordinate to itself is 0. -/
theorem calculateDistance_symm_and_self_zero :
    (∀ A B : Coordinates, calculateDistance A B = calculateDistance B A) ∧
    (∀ A : Coordinates, calculateDistance A A = 0) := by
  constructor
  · intro A B
    simp only [calculateDistance]
    rw [haversineTerm_comm]
  · intro A
    simp only [calculateDistance, haversineTerm_self, Real.sqrt_zero, sub_zero, Real.sqrt_one]
    rw [atan2, if_pos (by norm_num : (0 : ℝ) < 1)]
    norm_num [Real.arctan_zero]

end SecurePatrol
